import Mathlib

/-!
Verification development for a small RAG question-answering repository:
a Query Service (`backend/main.py`, FastAPI endpoint `query_llm`) and an
Evaluation Harness (`backend/eval.py`, `evaluate` / `main`).

The service and harness are shallowly embedded: JSON values are an inductive
type, the external world (filesystem, retrieval library, hosted model, HTTP
server) is an explicit environment, machine reals appearing in the code
(latency from `time.perf_counter`, request bounds) are modelled as rationals,
and the BLEU score (`nltk.translate.bleu_score.sentence_bleu` with
`SmoothingFunction().method4`) is modelled over the real numbers following
the library's algorithm: modified n-gram precision with clipping, method-4
smoothing with `k = 5`, brevity penalty, and a uniformly weighted log-sum
restricted to positive precisions.
-/

/-- JSON values, as produced by `resp.json()` and consumed by `dict.get`. -/
inductive JVal where
  | null
  | bool (b : Bool)
  | num (q : ℚ)
  | str (s : String)
  | arr (elems : List JVal)
  | obj (fields : List (String × JVal))

/-- Lookup of a key in a JSON object (`body[k]` when present). -/
def jfind (fields : List (String × JVal)) (k : String) : Option JVal :=
  (fields.find? fun p => p.1 == k).map Prod.snd

/-- Python's `dict.get(k, default)`. -/
def jget (fields : List (String × JVal)) (k : String) (dflt : JVal) : JVal :=
  (jfind fields k).getD dflt

/-- The enumerated model identifiers (`Literal["gpt-3.5-turbo", "gpt-4"]`). -/
inductive ModelName where
  | gpt35turbo
  | gpt4
deriving DecidableEq

/-- `Settings` from `backend/main.py` (environment-sourced configuration):
API key, default model name, document directory, and the two bounds
(defaults 2048 and 1024). -/
structure Settings where
  OPENAI_API_KEY : String
  OPENAI_MODEL_NAME : ModelName
  DOCUMENT_DIR : String
  MAX_CHUNK_SIZE : ℤ
  MAX_CHUNK_OVERLAP : ℤ

/-- A validated `QueryRequest` (pydantic model in `backend/main.py`). -/
structure QueryRequest where
  question : String
  chunk_size : ℤ
  chunk_overlap : ℤ
  model : ModelName
deriving DecidableEq

/-- `QueryResponse` from `backend/main.py`: answer text plus latency
(seconds, modelled as a rational). -/
structure QueryResponse where
  answer : String
  latency : ℚ
deriving DecidableEq

/-- Result of the HTTP endpoint: either a successful `QueryResponse` or an
HTTP error (`HTTPException(status, detail)` / FastAPI's 422 validation
response). -/
inductive HandlerResult where
  | success (resp : QueryResponse)
  | httpError (status : ℤ) (detail : String)
deriving DecidableEq

/-- The external collaborator calls the handler can attempt:
`SimpleDirectoryReader(...).load_data()` (document load) and the
OpenAI / ServiceContext / VectorStoreIndex / query-engine pipeline
(index build and model invocation). -/
inductive ExtCall where
  | loadDocuments
  | buildPipeline
deriving DecidableEq

/-- The world outside the service: filesystem predicates (`os.path.isdir`,
readability of the directory — the latter never consulted by the code),
the document loader (`none` models a raised exception, e.g. an unreadable
directory), the RAG pipeline (`none` models a raised exception), and the
monotonic clock readings `t0`, `t1` of `time.perf_counter`. -/
structure Env where
  isdir : String → Bool
  readable : String → Bool
  load_data : String → Option (List String)
  pipeline : QueryRequest → List String → Option String
  t0 : ℚ
  t1 : ℚ

/-- `query_llm` from `backend/main.py` (the handler body, after pydantic
validation): check the document directory, load documents, run the pipeline,
and return the answer with elapsed latency.  The second component is the
trace of external collaborator calls attempted. -/
def query_llm (s : Settings) (env : Env) (request : QueryRequest) :
    HandlerResult × List ExtCall :=
  if !env.isdir s.DOCUMENT_DIR then
    (HandlerResult.httpError 500 "Document directory not found", [])
  else
    match env.load_data s.DOCUMENT_DIR with
    | none => (HandlerResult.httpError 500 "Could not read documents", [ExtCall.loadDocuments])
    | some documents =>
      match env.pipeline request documents with
      | none =>
        (HandlerResult.httpError 500 "Failed to generate answer",
          [ExtCall.loadDocuments, ExtCall.buildPipeline])
      | some answer =>
        (HandlerResult.success ⟨answer, env.t1 - env.t0⟩,
          [ExtCall.loadDocuments, ExtCall.buildPipeline])

/-- Parse/validate the `question` field: required, a string, `min_length=1`. -/
def parseQuestion (body : List (String × JVal)) : Except String String :=
  match jfind body "question" with
  | some (JVal.str q) =>
    if q = "" then Except.error "question: ensure this value has at least 1 characters"
    else Except.ok q
  | some _ => Except.error "question: str type expected"
  | none => Except.error "question: field required"

/-- Parse/validate the `chunk_size` field: optional with default `512`,
an integer with `ge=1`, `le=MAX_CHUNK_SIZE`. -/
def parseChunkSize (s : Settings) (body : List (String × JVal)) : Except String ℤ :=
  match jfind body "chunk_size" with
  | none => Except.ok 512
  | some (JVal.num q) =>
    if q.den = 1 then
      if 1 ≤ q.num ∧ q.num ≤ s.MAX_CHUNK_SIZE then Except.ok q.num
      else Except.error "chunk_size: value out of bounds"
    else Except.error "chunk_size: integer type expected"
  | some _ => Except.error "chunk_size: integer type expected"

/-- Parse/validate the `chunk_overlap` field: optional with default `50`,
an integer with `ge=0`, `le=MAX_CHUNK_OVERLAP`. -/
def parseChunkOverlap (s : Settings) (body : List (String × JVal)) : Except String ℤ :=
  match jfind body "chunk_overlap" with
  | none => Except.ok 50
  | some (JVal.num q) =>
    if q.den = 1 then
      if 0 ≤ q.num ∧ q.num ≤ s.MAX_CHUNK_OVERLAP then Except.ok q.num
      else Except.error "chunk_overlap: value out of bounds"
    else Except.error "chunk_overlap: integer type expected"
  | some _ => Except.error "chunk_overlap: integer type expected"

/-- Parse/validate the `model` field: optional with default
`settings.OPENAI_MODEL_NAME`, must be one of the two literals. -/
def parseModel (s : Settings) (body : List (String × JVal)) : Except String ModelName :=
  match jfind body "model" with
  | none => Except.ok s.OPENAI_MODEL_NAME
  | some (JVal.str m) =>
    if m = "gpt-3.5-turbo" then Except.ok ModelName.gpt35turbo
    else if m = "gpt-4" then Except.ok ModelName.gpt4
    else Except.error "model: unexpected value"
  | some _ => Except.error "model: unexpected value"

/-- Pydantic validation of the request body into a `QueryRequest`
(performed by FastAPI before `query_llm` runs). -/
def parseQueryRequest (s : Settings) (body : List (String × JVal)) :
    Except String QueryRequest := do
  let question ← parseQuestion body
  let chunk_size ← parseChunkSize s body
  let chunk_overlap ← parseChunkOverlap s body
  let model ← parseModel s body
  Except.ok ⟨question, chunk_size, chunk_overlap, model⟩

/-- The `POST /query` endpoint: validate the body (422 on failure, with no
handler execution and hence no external call), then run `query_llm`. -/
def query_endpoint (s : Settings) (env : Env) (body : List (String × JVal)) :
    HandlerResult × List ExtCall :=
  match parseQueryRequest s body with
  | Except.error e => (HandlerResult.httpError 422 e, [])
  | Except.ok req => query_llm s env req

/-- A request body satisfying the spec's notion of a valid request:
non-empty `question`, `chunk_size` in `[1, MAX_CHUNK_SIZE]` (or absent),
`chunk_overlap` in `[0, MAX_CHUNK_OVERLAP]` (or absent), `model` in the
enumerated set (or absent). -/
def validRequestBody (s : Settings) (body : List (String × JVal)) : Bool :=
  (match jfind body "question" with
    | some (JVal.str q) => !(q == "")
    | _ => false) &&
  (match jfind body "chunk_size" with
    | none => true
    | some (JVal.num q) => q.den == 1 && decide (1 ≤ q.num) && decide (q.num ≤ s.MAX_CHUNK_SIZE)
    | some _ => false) &&
  (match jfind body "chunk_overlap" with
    | none => true
    | some (JVal.num q) => q.den == 1 && decide (0 ≤ q.num) && decide (q.num ≤ s.MAX_CHUNK_OVERLAP)
    | some _ => false) &&
  (match jfind body "model" with
    | none => true
    | some (JVal.str m) => (m == "gpt-3.5-turbo") || (m == "gpt-4")
    | some _ => false)

/-- Split a character list at every whitespace character (keeping empty
pieces, as `str.split(ch)` would). -/
def splitChars : List Char → List (List Char)
  | [] => [[]]
  | c :: cs =>
    let rest := splitChars cs
    if c.isWhitespace then [] :: rest
    else
      match rest with
      | [] => [[c]]
      | t :: ts => (c :: t) :: ts

/-- Python's `str.split()` with no argument: split on whitespace and drop
the empty pieces, leaving the maximal runs of non-whitespace characters. -/
def pySplit (s : String) : List String :=
  ((splitChars s.toList).map fun t => String.mk t).filter fun t => t ≠ ""

/-- `nltk.util.ngrams`: the contiguous n-grams of a token list (empty when
the list is shorter than `n`). -/
def ngrams (toks : List String) (n : ℕ) : List (List String) :=
  (List.range (toks.length + 1 - n)).map fun i => (toks.drop i).take n

/-- `nltk.translate.bleu_score.modified_precision` for a single reference:
the clipped n-gram count over the hypothesis n-gram count, returned as a
(numerator, denominator) pair of the Fraction it builds (denominator
clamped to at least 1). -/
def modified_precision (reference hypothesis : List String) (n : ℕ) : ℕ × ℕ :=
  let hypGrams := ngrams hypothesis n
  let refGrams := ngrams reference n
  ((hypGrams.dedup.map fun g => min (hypGrams.count g) (refGrams.count g)).sum,
    max 1 hypGrams.length)

/-- `nltk.translate.bleu_score.brevity_penalty`. -/
noncomputable def brevity_penalty (closest_ref_len hyp_len : ℕ) : ℝ :=
  if closest_ref_len < hyp_len then 1
  else if hyp_len = 0 then 0
  else Real.exp (1 - (closest_ref_len : ℝ) / (hyp_len : ℝ))

/-- `SmoothingFunction(k=5).method4`: precisions with a zero numerator are
replaced, for hypotheses longer than one token, by
`log(hyp_len) / (2^incvnt * 5 * denominator)` with `incvnt` incremented per
smoothed entry (`incvnt` starts at 1).  An entry returned as `none` is a
precision left at zero, which the final log-sum skips (its `p_i > 0` guard). -/
noncomputable def method4 (hyp_len : ℕ) :
    List (ℕ × ℕ) → ℕ → List (Option ℝ)
  | [], _ => []
  | (num, den) :: rest, incvnt =>
    if num = 0 then
      if 1 < hyp_len then
        some (Real.log (hyp_len : ℝ) / ((2 : ℝ) ^ incvnt * 5 * (den : ℝ))) ::
          method4 hyp_len rest (incvnt + 1)
      else none :: method4 hyp_len rest incvnt
    else some ((num : ℝ) / (den : ℝ)) :: method4 hyp_len rest incvnt

/-- The four (numerator, denominator) modified precisions for the default
uniform weights `(0.25, 0.25, 0.25, 0.25)`. -/
def precisionFractions (reference hypothesis : List String) : List (ℕ × ℕ) :=
  (List.range 4).map fun j => modified_precision reference hypothesis (j + 1)

/-- `nltk.translate.bleu_score.sentence_bleu` with one reference, default
uniform weights and method-4 smoothing, as called by the harness: returns 0
when no unigram matches; otherwise the brevity penalty times
`exp(sum of 0.25 * log p_i)` over the positive smoothed precisions. -/
noncomputable def sentence_bleu (reference hypothesis : List String) : ℝ :=
  if (modified_precision reference hypothesis 1).1 = 0 then 0
  else
    let hyp_len := hypothesis.length
    let bp := brevity_penalty reference.length hyp_len
    let p_n := method4 hyp_len (precisionFractions reference hypothesis) 1
    bp * Real.exp ((p_n.reduceOption.map fun p => (1 / 4 : ℝ) * Real.log p).sum)

/-- Outcome of one `requests.post` call as the harness sees it: `failure`
models any exception caught by its `try/except` (connection error,
`raise_for_status` on a non-success status, or an unparseable body);
`success` carries the parsed JSON body. -/
inductive CallOutcome where
  | failure
  | success (body : JVal)

/-- Exceptions the harness code itself can raise (outside the `try` block):
`AttributeError` from calling `.get`/`.split` on a value of the wrong type. -/
inductive PyError where
  | attributeError
deriving DecidableEq

/-- The dict returned by `evaluate`. -/
structure EvalResult where
  chunk_size : ℤ
  latency : JVal
  bleu : ℝ
  answer : String

/-- A result record as accumulated by `main`: `evaluate`'s dict plus the
originating question (`{**res, "question": tq.question}`). -/
structure EvalRecord where
  chunk_size : ℤ
  latency : JVal
  bleu : ℝ
  answer : String
  question : String

/-- The JSON payload `evaluate` posts to the endpoint. -/
def requestPayload (question : String) (chunk_size chunk_overlap : ℤ) :
    List (String × JVal) :=
  [("question", JVal.str question),
   ("chunk_size", JVal.num (chunk_size : ℚ)),
   ("chunk_overlap", JVal.num (chunk_overlap : ℚ))]

/-- `evaluate` from `backend/eval.py`: post the payload; on any caught
failure return the zero-quality dict; otherwise read `latency` (default
`None`) and `answer` (default `""`) from the body and BLEU-score the answer
against the expected text.  `.get` on a non-object body and `.split` on a
non-string answer raise `AttributeError` (outside the `try`), modelled as
`Except.error`.  The network is the function `post` from payloads to
outcomes. -/
noncomputable def evaluate (question expected : String)
    (chunk_size chunk_overlap : ℤ)
    (post : List (String × JVal) → CallOutcome) : Except PyError EvalResult :=
  let payload := requestPayload question chunk_size chunk_overlap
  match post payload with
  | CallOutcome.failure => Except.ok ⟨chunk_size, JVal.null, 0, ""⟩
  | CallOutcome.success data =>
    match data with
    | JVal.obj fields =>
      let latency := jget fields "latency" JVal.null
      match jget fields "answer" (JVal.str "") with
      | JVal.str answer =>
        Except.ok ⟨chunk_size, latency,
          sentence_bleu (pySplit expected) (pySplit answer), answer⟩
      | _ => Except.error PyError.attributeError
    | _ => Except.error PyError.attributeError

/-- `TestQuery` from `backend/eval.py`. -/
structure TestQuery where
  question : String
  expected : String

/-- The fixed reference set `TEST_QUERIES` from `backend/eval.py`. -/
def TEST_QUERIES : List TestQuery :=
  [⟨"What is the candidate\x27s experience with Python?",
    "The candidate has experience with Python in projects at Temenos and Thomson Reuters."⟩,
   ⟨"Where is the candidate studying?",
    "The candidate is pursuing an MS in Computer Science at San Jose State University."⟩]

/-- The inner loop of `main`: evaluate each test query at one chunk size
(chunk_overlap left at its default 50), tagging each result with its
question.  An uncaught exception from `evaluate` propagates. -/
noncomputable def runQueries (post : List (String × JVal) → CallOutcome)
    (cs : ℤ) : List TestQuery → Except PyError (List EvalRecord)
  | [] => Except.ok []
  | tq :: rest => do
    let res ← evaluate tq.question tq.expected cs 50 post
    let tail ← runQueries post cs rest
    Except.ok (⟨res.chunk_size, res.latency, res.bleu, res.answer, tq.question⟩ :: tail)

/-- The outer loop of `main`: sweep the chunk sizes in order. -/
noncomputable def runSizes (post : List (String × JVal) → CallOutcome) :
    List ℤ → Except PyError (List EvalRecord)
  | [] => Except.ok []
  | cs :: rest => do
    let rs ← runQueries post cs TEST_QUERIES
    let tail ← runSizes post rest
    Except.ok (rs ++ tail)

/-- `main` from `backend/eval.py` up to the content of the written result
file: the ordered record list it accumulates and serializes (the file write
itself is I/O outside the embedding).  `Except.ok` is completion without an
uncaught exception. -/
noncomputable def run_evaluation (post : List (String × JVal) → CallOutcome) :
    Except PyError (List EvalRecord) :=
  runSizes post [256, 512, 1024]

/-- The payloads the sweep issues, in order: the chunk sizes crossed with
the test queries, `chunk_overlap` at its default 50. -/
def issuedPayloads : List (List (String × JVal)) :=
  ([256, 512, 1024] : List ℤ).flatMap fun cs =>
    TEST_QUERIES.map fun tq => requestPayload tq.question cs 50

/-- An outcome the harness can score without raising: a caught failure, or
a JSON object whose `answer` field is absent or a string. -/
def outcomeScorable : CallOutcome → Bool
  | CallOutcome.failure => true
  | CallOutcome.success (JVal.obj fields) =>
    match jget fields "answer" (JVal.str "") with
    | JVal.str _ => true
    | _ => false
  | CallOutcome.success _ => false

/-- A concrete configuration with the default bounds (2048, 1024),
default model and default document directory. -/
def settingsTest : Settings :=
  ⟨"sk-test", ModelName.gpt35turbo, "documents", 2048, 1024⟩

/-- A healthy world: directory present and readable, documents load, the
pipeline answers, and the clock advances from 0 to 1. -/
def envOk : Env :=
  ⟨fun _ => true, fun _ => true, fun _ => some ["resume text"],
    fun _ _ => some "an answer", 0, 1⟩

/-- A world whose document directory does not exist. -/
def envNoDir : Env :=
  ⟨fun _ => false, fun _ => false, fun _ => none, fun _ _ => none, 0, 0⟩

/-- A world whose document directory exists (`os.path.isdir` is true) but is
unreadable, so loading its documents raises. -/
def envUnreadable : Env :=
  ⟨fun _ => true, fun _ => false, fun _ => none, fun _ _ => none, 0, 0⟩

/-- A concrete validated request. -/
def requestTest : QueryRequest :=
  ⟨"Where is the candidate studying?", 512, 50, ModelName.gpt35turbo⟩

/-- A concrete valid request body (the optional fields left to defaults). -/
def bodyValid : List (String × JVal) :=
  [("question", JVal.str "Where is the candidate studying?")]

/-- A concrete request body whose `chunk_size` is out of bounds. -/
def bodyBadChunk : List (String × JVal) :=
  [("question", JVal.str "hi"), ("chunk_size", JVal.num 0)]

/-- A network in which every call fails (service unreachable). -/
def postFailure : List (String × JVal) → CallOutcome :=
  fun _ => CallOutcome.failure

/-- A response body whose `answer` field holds a (non-string) number. -/
def bodyBadAnswer : JVal := JVal.obj [("answer", JVal.num 5)]

/-- A network returning, to every call, a parseable body whose `answer`
field is a number. -/
def postBadAnswer : List (String × JVal) → CallOutcome :=
  fun _ => CallOutcome.success bodyBadAnswer

/-- A network returning, to every call, a body with an empty string answer
and no latency field. -/
def postEmptyAnswer : List (String × JVal) → CallOutcome :=
  fun _ => CallOutcome.success (JVal.obj [("answer", JVal.str "")])

/-- If the body passes the spec's validity conditions, pydantic validation
succeeds. -/
theorem parse_ok_of_valid (s : Settings) (body : List (String × JVal))
    (h : validRequestBody s body = true) :
    ∃ req, parseQueryRequest s body = Except.ok req := by
  simp only [validRequestBody, Bool.and_eq_true] at h
  obtain ⟨⟨⟨h1, h2⟩, h3⟩, h4⟩ := h
  obtain ⟨q, hq⟩ : ∃ q, parseQuestion body = Except.ok q := by
    unfold parseQuestion
    split at h1 <;> simp_all
  obtain ⟨cs, hcs⟩ : ∃ cs, parseChunkSize s body = Except.ok cs := by
    unfold parseChunkSize
    split at h2 <;> simp_all
  obtain ⟨co, hco⟩ : ∃ co, parseChunkOverlap s body = Except.ok co := by
    unfold parseChunkOverlap
    split at h3 <;> simp_all
  obtain ⟨m, hm⟩ : ∃ m, parseModel s body = Except.ok m := by
    unfold parseModel
    split at h4 <;> simp_all
    rcases h4 with h4 | h4 <;> simp [h4]
  exact ⟨⟨q, cs, co, m⟩, by simp [parseQueryRequest, hq, hcs, hco, hm, Bind.bind, Except.bind]⟩

/-- C1: for every valid request (question non-empty, chunk_size in
[1, MAX_CHUNK_SIZE], chunk_overlap in [0, MAX_CHUNK_OVERLAP], model in the
enumerated set) and a monotonic clock, the endpoint either returns a
successful response whose latency is nonnegative and whose answer is a
string (non-null), or fails with the server-error status 500 — never a
client-error status. -/
theorem claim_C1 (s : Settings) (env : Env) (body : List (String × JVal))
    (hvalid : validRequestBody s body = true) (hclock : env.t0 ≤ env.t1) :
    (∃ a l, (query_endpoint s env body).1 = HandlerResult.success ⟨a, l⟩ ∧ 0 ≤ l) ∨
    (∃ d, (query_endpoint s env body).1 = HandlerResult.httpError 500 d) := by
  obtain ⟨req, hreq⟩ := parse_ok_of_valid s body hvalid
  unfold query_endpoint
  rw [hreq]
  unfold query_llm
  rcases hdir : env.isdir s.DOCUMENT_DIR with _ | _
  · right
    exact ⟨"Document directory not found", by simp [hdir]⟩
  · rcases hload : env.load_data s.DOCUMENT_DIR with _ | docs
    · right
      exact ⟨"Could not read documents", by simp [hdir, hload]⟩
    · rcases hpipe : env.pipeline req docs with _ | ans
      · right
        exact ⟨"Failed to generate answer", by simp [hdir, hload, hpipe]⟩
      · left
        exact ⟨ans, env.t1 - env.t0, by simp [hdir, hload, hpipe],
          sub_nonneg.mpr hclock⟩

/-- Witness for C1 at a concrete valid body and a healthy environment. -/
theorem claim_C1_witness :
    (∃ a l, (query_endpoint settingsTest envOk bodyValid).1 =
        HandlerResult.success ⟨a, l⟩ ∧ 0 ≤ l) ∨
    (∃ d, (query_endpoint settingsTest envOk bodyValid).1 =
        HandlerResult.httpError 500 d) :=
  claim_C1 settingsTest envOk bodyValid (by decide) (by norm_num [envOk])

/-- C4: a request whose `chunk_size` field is an integer that is ≤ 0 or
exceeds MAX_CHUNK_SIZE is rejected with the client-error status 422, and no
external call is attempted (the call trace is empty). -/
theorem claim_C4 (s : Settings) (env : Env) (body : List (String × JVal))
    (q : ℚ) (hf : jfind body "chunk_size" = some (JVal.num q))
    (hden : q.den = 1) (hb : q.num ≤ 0 ∨ s.MAX_CHUNK_SIZE < q.num) :
    ∃ e, query_endpoint s env body = (HandlerResult.httpError 422 e, []) := by
  have hcs : parseChunkSize s body = Except.error "chunk_size: value out of bounds" := by
    unfold parseChunkSize
    rw [hf]
    have hnot : ¬(1 ≤ q.num ∧ q.num ≤ s.MAX_CHUNK_SIZE) := by omega
    simp [hden, hnot]
  unfold query_endpoint parseQueryRequest
  rcases hq : parseQuestion body with e | q0
  · exact ⟨e, by simp [hq, Bind.bind, Except.bind]⟩
  · exact ⟨"chunk_size: value out of bounds", by simp [hq, hcs, Bind.bind, Except.bind]⟩

/-- Witness for C4 at a concrete body with `chunk_size = 0`. -/
theorem claim_C4_witness :
    ∃ e, query_endpoint settingsTest envOk bodyBadChunk =
      (HandlerResult.httpError 422 e, []) :=
  claim_C4 settingsTest envOk bodyBadChunk 0 rfl rfl (Or.inl (by norm_num))

/-- Counterexample to C8 as stated: with a document directory that exists
(`os.path.isdir` succeeds) but is not readable (so loading raises), the
handler attempts the external document-load call and fails with the
"Could not read documents" error — not with the "Document directory not
found" error and an empty call trace that the claim requires for an
unreadable document source. -/
theorem claim_C8_counterexample :
    query_llm settingsTest envUnreadable requestTest =
      (HandlerResult.httpError 500 "Could not read documents", [ExtCall.loadDocuments]) ∧
    envUnreadable.readable settingsTest.DOCUMENT_DIR = false ∧
    ([ExtCall.loadDocuments] : List ExtCall) ≠ [] ∧
    "Could not read documents" ≠ "Document directory not found" := by
  refine ⟨rfl, rfl, by simp, by decide⟩

/-- C8 (amended): if the configured document directory does not exist (is
not a directory), `query_llm` fails with the server error
"Document directory not found" and attempts no external call; if the
directory exists but its documents cannot be loaded (for example because it
is unreadable), the document-load call is attempted and the handler fails
with the server error "Could not read documents". -/
theorem claim_C8 (s : Settings) (env : Env) (req : QueryRequest) :
    (env.isdir s.DOCUMENT_DIR = false →
      query_llm s env req =
        (HandlerResult.httpError 500 "Document directory not found", [])) ∧
    (env.isdir s.DOCUMENT_DIR = true → env.load_data s.DOCUMENT_DIR = none →
      query_llm s env req =
        (HandlerResult.httpError 500 "Could not read documents",
          [ExtCall.loadDocuments])) := by
  constructor
  · intro hdir
    simp [query_llm, hdir]
  · intro hdir hload
    simp [query_llm, hdir, hload]

/-- Witness for C8 at concrete environments: a missing directory and an
existing-but-unloadable one. -/
theorem claim_C8_witness :
    query_llm settingsTest envNoDir requestTest =
      (HandlerResult.httpError 500 "Document directory not found", []) ∧
    query_llm settingsTest envUnreadable requestTest =
      (HandlerResult.httpError 500 "Could not read documents",
        [ExtCall.loadDocuments]) :=
  ⟨(claim_C8 settingsTest envNoDir requestTest).1 rfl,
    (claim_C8 settingsTest envUnreadable requestTest).2 rfl rfl⟩

/-- Splitting the empty string yields no tokens (`"".split() == []`). -/
theorem pySplit_empty : pySplit "" = [] := rfl

/-- An empty hypothesis has no matching unigram, so `sentence_bleu`
returns 0 via its zero-numerator early return. -/
theorem sentence_bleu_nil_hyp (reference : List String) :
    sentence_bleu reference [] = 0 := by
  simp [sentence_bleu, modified_precision, ngrams]

/-- C7: scoring any reference against the empty answer returns exactly 0,
and an empty or missing `answer` field is still scored without raising:
`evaluate` returns the record (with BLEU 0 and empty answer) rather than
an exception. -/
theorem claim_C7 :
    (∀ reference : String, sentence_bleu (pySplit reference) (pySplit "") = 0) ∧
    (∀ (q e : String) (cs co : ℤ) (fields : List (String × JVal)),
      (jfind fields "answer" = none ∨ jfind fields "answer" = some (JVal.str "")) →
      evaluate q e cs co (fun _ => CallOutcome.success (JVal.obj fields)) =
        Except.ok ⟨cs, jget fields "latency" JVal.null, 0, ""⟩) := by
  constructor
  · intro reference
    rw [pySplit_empty]
    exact sentence_bleu_nil_hyp _
  · intro q e cs co fields hf
    have hans : jget fields "answer" (JVal.str "") = JVal.str "" := by
      rcases hf with hf | hf <;> simp [jget, hf]
    simp [evaluate, hans, pySplit_empty, sentence_bleu_nil_hyp]

/-- Witness for C7: a body with no `answer` field is scored to the
zero-quality record. -/
theorem claim_C7_witness :
    evaluate "q" "e" 256 50 (fun _ => CallOutcome.success (JVal.obj [])) =
      Except.ok ⟨256, JVal.null, 0, ""⟩ :=
  claim_C7.2 "q" "e" 256 50 [] (Or.inl rfl)

/-- On a scorable outcome (caught failure, or object body with an absent or
string `answer`), `evaluate` returns a record rather than raising. -/
theorem evaluate_ok_of_scorable (q e : String) (cs co : ℤ)
    (post : List (String × JVal) → CallOutcome)
    (h : outcomeScorable (post (requestPayload q cs co)) = true) :
    ∃ r, evaluate q e cs co post = Except.ok r := by
  rcases hp : post (requestPayload q cs co) with _ | data
  · exact ⟨⟨cs, JVal.null, 0, ""⟩, by simp [evaluate, hp]⟩
  · rw [hp] at h
    rcases data with _ | b | n | s | a | fields <;> simp [outcomeScorable] at h
    rcases hans : jget fields "answer" (JVal.str "") with _ | b | n | s | a | o <;>
      rw [hans] at h <;> simp at h
    exact ⟨⟨cs, jget fields "latency" JVal.null,
      sentence_bleu (pySplit e) (pySplit s), s⟩, by simp [evaluate, hp, hans]⟩

/-- If every outcome the network can produce is scorable, the inner query
loop completes with one record per query. -/
theorem runQueries_ok (post : List (String × JVal) → CallOutcome)
    (hall : ∀ pl, outcomeScorable (post pl) = true) (cs : ℤ) :
    ∀ qs : List TestQuery,
      ∃ rs, runQueries post cs qs = Except.ok rs ∧ rs.length = qs.length
  | [] => ⟨[], rfl, rfl⟩
  | tq :: rest => by
    obtain ⟨r, hr⟩ := evaluate_ok_of_scorable tq.question tq.expected cs 50 post (hall _)
    obtain ⟨rs, hrs, hlen⟩ := runQueries_ok post hall cs rest
    exact ⟨⟨r.chunk_size, r.latency, r.bleu, r.answer, tq.question⟩ :: rs,
      by simp [runQueries, hr, hrs, Bind.bind, Except.bind], by simp [hlen]⟩

/-- If every outcome the network can produce is scorable, the chunk-size
sweep completes with `TEST_QUERIES.length` records per chunk size. -/
theorem runSizes_ok (post : List (String × JVal) → CallOutcome)
    (hall : ∀ pl, outcomeScorable (post pl) = true) :
    ∀ css : List ℤ,
      ∃ rs, runSizes post css = Except.ok rs ∧
        rs.length = css.length * TEST_QUERIES.length
  | [] => ⟨[], rfl, rfl⟩
  | cs :: rest => by
    obtain ⟨rs, hrs, hlen⟩ := runQueries_ok post hall cs TEST_QUERIES
    obtain ⟨tail, htail, hlen2⟩ := runSizes_ok post hall rest
    refine ⟨rs ++ tail, by simp [runSizes, hrs, htail, Bind.bind, Except.bind], ?_⟩
    simp [hlen, hlen2, Nat.succ_mul, Nat.add_comm]

/-- C2: if the call for a (chunk_size, query) pair fails for any caught
reason (network error, non-success status, unparseable body —
`CallOutcome.failure`), `evaluate` returns the record with `latency = null`,
`bleu = 0.0`, `answer = ""` for that pair; and such failures never abort the
run: whenever every outcome is a failure or a well-typed success, the whole
sweep completes with its full six records. -/
theorem claim_C2 :
    (∀ (q e : String) (cs co : ℤ) (post : List (String × JVal) → CallOutcome),
      post (requestPayload q cs co) = CallOutcome.failure →
      evaluate q e cs co post = Except.ok ⟨cs, JVal.null, 0, ""⟩) ∧
    (∀ post : List (String × JVal) → CallOutcome,
      (∀ pl, outcomeScorable (post pl) = true) →
      ∃ rs, run_evaluation post = Except.ok rs ∧ rs.length = 6) := by
  constructor
  · intro q e cs co post hp
    simp [evaluate, hp]
  · intro post hall
    obtain ⟨rs, hrs, hlen⟩ := runSizes_ok post hall [256, 512, 1024]
    exact ⟨rs, hrs, by simpa [TEST_QUERIES] using hlen⟩

/-- Witness for C2: one failing call yields the zero-quality record, and an
all-failure network still completes the six-record sweep. -/
theorem claim_C2_witness :
    evaluate "q" "e" 7 50 postFailure = Except.ok ⟨7, JVal.null, 0, ""⟩ ∧
    ∃ rs, run_evaluation postFailure = Except.ok rs ∧ rs.length = 6 :=
  ⟨claim_C2.1 "q" "e" 7 50 postFailure rfl,
    claim_C2.2 postFailure fun _ => rfl⟩

/-- Counterexample to C3 as stated: a call that succeeds (the server
responds with a parseable body, here with an empty answer and no latency
field) still produces a record with `latency = null`, because the harness
defaults a missing `latency` field to `None`.  So a null latency does not
imply the call failed. -/
theorem claim_C3_counterexample :
    evaluate "q" "e" 256 50 postEmptyAnswer = Except.ok ⟨256, JVal.null, 0, ""⟩ ∧
    postEmptyAnswer (requestPayload "q" 256 50) ≠ CallOutcome.failure := by
  constructor
  · simp [evaluate, postEmptyAnswer, jget, jfind, pySplit_empty, sentence_bleu_nil_hyp]
  · intro h
    exact CallOutcome.noConfusion h

/-- C3 (amended): in every record `evaluate` produces, a failed call always
yields `latency = null`, while a successful call yields exactly the body's
`latency` field, defaulting to null when the field is missing — so a null
latency signals either a failed call or a response without a (non-null)
latency value. -/
theorem claim_C3 (q e : String) (cs co : ℤ)
    (post : List (String × JVal) → CallOutcome) (r : EvalResult)
    (hok : evaluate q e cs co post = Except.ok r) :
    (post (requestPayload q cs co) = CallOutcome.failure → r.latency = JVal.null) ∧
    (∀ fields, post (requestPayload q cs co) = CallOutcome.success (JVal.obj fields) →
      r.latency = jget fields "latency" JVal.null) := by
  constructor
  · intro hp
    simp only [evaluate, hp, Except.ok.injEq] at hok
    rw [← hok]
  · intro fields hp
    simp only [evaluate, hp] at hok
    rcases hans : jget fields "answer" (JVal.str "") with _ | b | n | s | a | o <;>
      rw [hans] at hok <;> simp only [Except.ok.injEq] at hok <;>
      first
        | exact absurd hok (by simp)
        | rw [← hok]

/-- Witness for C3 at a concrete failing call. -/
theorem claim_C3_witness :
    (⟨7, JVal.null, 0, ""⟩ : EvalResult).latency = JVal.null :=
  (claim_C3 "q" "e" 7 50 postFailure ⟨7, JVal.null, 0, ""⟩
    (by simp [evaluate, postFailure])).1 rfl

/-- C5: if the Query Service is unreachable for every call, the sweep still
completes without raising, and the result list written out holds exactly one
zero-quality record per (chunk_size, query) pair — six records for the
sweep [256, 512, 1024] over the two reference queries, each tagged with its
originating chunk_size and question. -/
theorem claim_C5 :
    run_evaluation postFailure = Except.ok
      [⟨256, JVal.null, 0, "", "What is the candidate\x27s experience with Python?"⟩,
       ⟨256, JVal.null, 0, "", "Where is the candidate studying?"⟩,
       ⟨512, JVal.null, 0, "", "What is the candidate\x27s experience with Python?"⟩,
       ⟨512, JVal.null, 0, "", "Where is the candidate studying?"⟩,
       ⟨1024, JVal.null, 0, "", "What is the candidate\x27s experience with Python?"⟩,
       ⟨1024, JVal.null, 0, "", "Where is the candidate studying?"⟩] := rfl

/-- C10: `evaluate` is total only for well-typed answers.  If an
HTTP-successful, JSON-parseable object body carries an `answer` field whose
value is not a string, the scoring path (`answer.split()`) raises
`AttributeError`; if the field is absent or a string, `evaluate` returns a
record.  The exception escapes `evaluate` and aborts the sweep: a network
whose response to the first issued call carries such an answer makes
`run_evaluation` end in the error rather than a record list. -/
theorem claim_C10 :
    (∀ (q e : String) (cs co : ℤ) (post : List (String × JVal) → CallOutcome)
      (fields : List (String × JVal)),
      post (requestPayload q cs co) = CallOutcome.success (JVal.obj fields) →
      (∀ a, jget fields "answer" (JVal.str "") ≠ JVal.str a) →
      evaluate q e cs co post = Except.error PyError.attributeError) ∧
    (∀ (q e : String) (cs co : ℤ) (fields : List (String × JVal)),
      (∃ a, jget fields "answer" (JVal.str "") = JVal.str a) →
      ∃ r, evaluate q e cs co (fun _ => CallOutcome.success (JVal.obj fields)) =
        Except.ok r) ∧
    (∀ (post : List (String × JVal) → CallOutcome) (fields : List (String × JVal)),
      post (requestPayload "What is the candidate\x27s experience with Python?" 256 50) =
        CallOutcome.success (JVal.obj fields) →
      (∀ a, jget fields "answer" (JVal.str "") ≠ JVal.str a) →
      run_evaluation post = Except.error PyError.attributeError) := by
  have hraise : ∀ (q e : String) (cs co : ℤ)
      (post : List (String × JVal) → CallOutcome) (fields : List (String × JVal)),
      post (requestPayload q cs co) = CallOutcome.success (JVal.obj fields) →
      (∀ a, jget fields "answer" (JVal.str "") ≠ JVal.str a) →
      evaluate q e cs co post = Except.error PyError.attributeError := by
    intro q e cs co post fields hp hbad
    rcases hans : jget fields "answer" (JVal.str "") with _ | b | n | s | a | o <;>
      simp [evaluate, hp, hans]
    exact absurd hans (hbad s)
  refine ⟨hraise, ?_, ?_⟩
  · intro q e cs co fields ⟨a, ha⟩
    exact ⟨⟨cs, jget fields "latency" JVal.null,
      sentence_bleu (pySplit e) (pySplit a), a⟩, by simp [evaluate, ha]⟩
  · intro post fields hp hbad
    have h1 : evaluate "What is the candidate\x27s experience with Python?"
        "The candidate has experience with Python in projects at Temenos and Thomson Reuters."
        256 50 post = Except.error PyError.attributeError :=
      hraise _ _ _ _ post fields hp hbad
    simp [run_evaluation, runSizes, runQueries, TEST_QUERIES, h1, Bind.bind, Except.bind]

/-- Witness for C10: a body whose `answer` is the number 5 makes `evaluate`
raise and the sweep abort; one with a string answer is evaluated. -/
theorem claim_C10_witness :
    evaluate "q" "e" 1 0 postBadAnswer = Except.error PyError.attributeError ∧
    (∃ r, evaluate "q" "e" 1 0
      (fun _ => CallOutcome.success (JVal.obj [("answer", JVal.str "hi")])) =
        Except.ok r) ∧
    run_evaluation postBadAnswer = Except.error PyError.attributeError :=
  ⟨claim_C10.1 "q" "e" 1 0 postBadAnswer [("answer", JVal.num 5)] rfl
      (fun _ h => JVal.noConfusion h),
    claim_C10.2.1 "q" "e" 1 0 [("answer", JVal.str "hi")] ⟨"hi", rfl⟩,
    claim_C10.2.2 postBadAnswer [("answer", JVal.num 5)] rfl
      (fun _ h => JVal.noConfusion h)⟩

/-- `evaluate` consults the network only at its own request payload. -/
theorem evaluate_congr (q e : String) (cs co : ℤ)
    (post post2 : List (String × JVal) → CallOutcome)
    (h : post (requestPayload q cs co) = post2 (requestPayload q cs co)) :
    evaluate q e cs co post = evaluate q e cs co post2 := by
  simp only [evaluate]
  rw [h]

/-- The inner loop consults the network only at the payloads of its
queries. -/
theorem runQueries_congr (post post2 : List (String × JVal) → CallOutcome)
    (cs : ℤ) :
    ∀ qs : List TestQuery,
      (∀ tq ∈ qs, post (requestPayload tq.question cs 50) =
        post2 (requestPayload tq.question cs 50)) →
      runQueries post cs qs = runQueries post2 cs qs
  | [], _ => rfl
  | tq :: rest, h => by
    have he := evaluate_congr tq.question tq.expected cs 50 post post2
      (h tq (List.mem_cons_self tq rest))
    have ht := runQueries_congr post post2 cs rest
      fun tq2 htq2 => h tq2 (List.mem_cons_of_mem tq htq2)
    simp only [runQueries, he, ht]

/-- The sweep consults the network only at the payloads it issues. -/
theorem runSizes_congr (post post2 : List (String × JVal) → CallOutcome) :
    ∀ css : List ℤ,
      (∀ cs ∈ css, ∀ tq ∈ TEST_QUERIES,
        post (requestPayload tq.question cs 50) =
          post2 (requestPayload tq.question cs 50)) →
      runSizes post css = runSizes post2 css
  | [], _ => rfl
  | cs :: rest, h => by
    have hq := runQueries_congr post post2 cs TEST_QUERIES
      (h cs (List.mem_cons_self cs rest))
    have ht := runSizes_congr post post2 rest
      fun cs2 hcs2 => h cs2 (List.mem_cons_of_mem cs hcs2)
    simp only [runSizes, hq, ht]

/-- Parsing a harness payload with the service's request model: validation
succeeds for in-bounds values, and the `model` field — absent from the
payload — defaults to the configured model. -/
theorem parse_requestPayload (s : Settings) (q : String) (cs co : ℤ)
    (hq : q ≠ "") (h1 : 1 ≤ cs) (h2 : cs ≤ s.MAX_CHUNK_SIZE)
    (h3 : 0 ≤ co) (h4 : co ≤ s.MAX_CHUNK_OVERLAP) :
    parseQueryRequest s (requestPayload q cs co) =
      Except.ok ⟨q, cs, co, s.OPENAI_MODEL_NAME⟩ := by
  have hjq : jfind (requestPayload q cs co) "question" = some (JVal.str q) := rfl
  have hjc : jfind (requestPayload q cs co) "chunk_size" =
    some (JVal.num (cs : ℚ)) := rfl
  have hjo : jfind (requestPayload q cs co) "chunk_overlap" =
    some (JVal.num (co : ℚ)) := rfl
  have hjm : jfind (requestPayload q cs co) "model" = none := rfl
  simp [parseQueryRequest, parseQuestion, parseChunkSize, parseChunkOverlap,
    parseModel, hjq, hjc, hjo, hjm, hq, h1, h2, h3, h4, Bind.bind, Except.bind]

/-- C9: every payload the harness builds has exactly the fields `question`,
`chunk_size`, `chunk_overlap` — never `model`; the sweep issues exactly the
six payloads of the grid, with `chunk_overlap` fixed at 50 and only
`chunk_size` varying; the run's outcome depends on the network only at
those six payloads; and the service's request validation parses each issued
payload with `model` defaulting to the configured model (whenever the sweep
values fit the configured bounds). -/
theorem claim_C9 :
    (∀ (q : String) (cs co : ℤ),
      (requestPayload q cs co).map Prod.fst =
        ["question", "chunk_size", "chunk_overlap"] ∧
      jfind (requestPayload q cs co) "model" = none) ∧
    issuedPayloads =
      [requestPayload "What is the candidate\x27s experience with Python?" 256 50,
       requestPayload "Where is the candidate studying?" 256 50,
       requestPayload "What is the candidate\x27s experience with Python?" 512 50,
       requestPayload "Where is the candidate studying?" 512 50,
       requestPayload "What is the candidate\x27s experience with Python?" 1024 50,
       requestPayload "Where is the candidate studying?" 1024 50] ∧
    (∀ post post2 : List (String × JVal) → CallOutcome,
      (∀ pl ∈ issuedPayloads, post pl = post2 pl) →
      run_evaluation post = run_evaluation post2) ∧
    (∀ s : Settings, 1024 ≤ s.MAX_CHUNK_SIZE → 50 ≤ s.MAX_CHUNK_OVERLAP →
      ∀ pl ∈ issuedPayloads, ∃ req, parseQueryRequest s pl = Except.ok req ∧
        req.model = s.OPENAI_MODEL_NAME ∧ req.chunk_overlap = 50) := by
  refine ⟨fun q cs co => ⟨rfl, rfl⟩, rfl, ?_, ?_⟩
  · intro post post2 h
    apply runSizes_congr
    intro cs hcs tq htq
    exact h _ (List.mem_flatMap.mpr ⟨cs, hcs, List.mem_map.mpr ⟨tq, htq, rfl⟩⟩)
  · intro s hm1 hm2 pl hpl
    have key : ∀ (q : String) (cs : ℤ), q ≠ "" → 1 ≤ cs → cs ≤ 1024 →
        ∃ req, parseQueryRequest s (requestPayload q cs 50) = Except.ok req ∧
          req.model = s.OPENAI_MODEL_NAME ∧ req.chunk_overlap = 50 :=
      fun q cs hq ha hb =>
        ⟨⟨q, cs, 50, s.OPENAI_MODEL_NAME⟩,
          parse_requestPayload s q cs 50 hq ha (by omega) (by omega) (by omega),
          rfl, rfl⟩
    rw [show issuedPayloads =
      [requestPayload "What is the candidate\x27s experience with Python?" 256 50,
       requestPayload "Where is the candidate studying?" 256 50,
       requestPayload "What is the candidate\x27s experience with Python?" 512 50,
       requestPayload "Where is the candidate studying?" 512 50,
       requestPayload "What is the candidate\x27s experience with Python?" 1024 50,
       requestPayload "Where is the candidate studying?" 1024 50] from rfl] at hpl
    simp only [List.mem_cons, List.not_mem_nil, or_false] at hpl
    rcases hpl with rfl | rfl | rfl | rfl | rfl | rfl <;>
      exact key _ _ (by decide) (by norm_num) (by norm_num)

/-- Witness for C9: the all-failure network agrees on the issued payloads
with the literal all-failure function, so the runs agree; and the first
issued payload parses under the default configuration to a request carrying
the configured default model. -/
theorem claim_C9_witness :
    run_evaluation postFailure = run_evaluation (fun _ => CallOutcome.failure) ∧
    (∃ req, parseQueryRequest settingsTest
        (requestPayload "What is the candidate\x27s experience with Python?" 256 50) =
      Except.ok req ∧ req.model = settingsTest.OPENAI_MODEL_NAME ∧
      req.chunk_overlap = 50) :=
  ⟨claim_C9.2.2.1 postFailure (fun _ => CallOutcome.failure) (fun _ _ => rfl),
    claim_C9.2.2.2 settingsTest (by decide) (by decide) _ (List.Mem.head _)⟩

/-- The number of n-grams of a token list. -/
theorem ngrams_length (toks : List String) (n : ℕ) :
    (ngrams toks n).length = toks.length + 1 - n := by
  simp [ngrams]

/-- The two boolean-equality instances on token n-grams agree. -/
theorem beq_lists (a b : List String) :
    (a == b) = @BEq.beq _ instBEqOfDecidableEq a b := by
  rw [Bool.eq_iff_iff]
  simp [beq_iff_eq]

/-- Occurrence counts of an n-gram agree across the two boolean-equality
instances. -/
theorem count_bridge (g : List String) (l : List (List String)) :
    l.count g = @List.count _ instBEqOfDecidableEq g l := by
  induction l with
  | nil => rfl
  | cons a l ih =>
    rw [List.count_cons, @List.count_cons _ instBEqOfDecidableEq, ih, beq_lists a g]

/-- Against itself, every modified n-gram precision is total: the clipped
count equals the n-gram count, and for `1 ≤ n ≤ length` the denominator is
not clamped. -/
theorem modified_precision_self (t : List String) (n : ℕ)
    (h1 : 1 ≤ n) (h2 : n ≤ t.length) :
    modified_precision t t n = (t.length + 1 - n, t.length + 1 - n) := by
  have hl : (ngrams t n).length = t.length + 1 - n := ngrams_length t n
  simp only [modified_precision, min_self, count_bridge,
    List.sum_map_count_dedup_eq_length, hl, Prod.mk.injEq]
  refine ⟨trivial, ?_⟩
  rw [sup_eq_max]
  omega

/-- The brevity penalty of a hypothesis of exactly the reference length
is 1. -/
theorem brevity_penalty_self (L : ℕ) (h : L ≠ 0) :
    brevity_penalty L L = 1 := by
  have hc : ((L : ℝ)) / (L : ℝ) = 1 := div_self (Nat.cast_ne_zero.mpr h)
  simp [brevity_penalty, lt_irrefl, h, hc]

/-- A reference of at least four tokens scores 1 against itself: all four
modified precisions are 1 (so method-4 smoothing leaves them untouched),
the log-sum is 0, and the brevity penalty is 1. -/
theorem sentence_bleu_self (t : List String) (h : 4 ≤ t.length) :
    sentence_bleu t t = 1 := by
  have c1 : modified_precision t t 1 = (t.length, t.length) := by
    rw [modified_precision_self t 1 (by norm_num) (by omega)]
    simp
  have c2 : modified_precision t t 2 = (t.length - 1, t.length - 1) := by
    rw [modified_precision_self t 2 (by norm_num) (by omega)]
    exact rfl
  have c3 : modified_precision t t 3 = (t.length - 2, t.length - 2) := by
    rw [modified_precision_self t 3 (by norm_num) (by omega)]
    exact rfl
  have c4 : modified_precision t t 4 = (t.length - 3, t.length - 3) := by
    rw [modified_precision_self t 4 (by norm_num) (by omega)]
    exact rfl
  have e1 : t.length ≠ 0 := by omega
  have e2 : t.length - 1 ≠ 0 := by omega
  have e3 : t.length - 2 ≠ 0 := by omega
  have e4 : t.length - 3 ≠ 0 := by omega
  have hpf : precisionFractions t t =
      [(t.length, t.length), (t.length - 1, t.length - 1),
       (t.length - 2, t.length - 2), (t.length - 3, t.length - 3)] := by
    have hr : List.range 4 = [0, 1, 2, 3] := rfl
    rw [precisionFractions, hr]
    simp [c1, c2, c3, c4]
  have hm : method4 t.length
      [(t.length, t.length), (t.length - 1, t.length - 1),
       (t.length - 2, t.length - 2), (t.length - 3, t.length - 3)] 1 =
      [some (((t.length : ℕ) : ℝ) / ((t.length : ℕ) : ℝ)),
       some (((t.length - 1 : ℕ) : ℝ) / ((t.length - 1 : ℕ) : ℝ)),
       some (((t.length - 2 : ℕ) : ℝ) / ((t.length - 2 : ℕ) : ℝ)),
       some (((t.length - 3 : ℕ) : ℝ) / ((t.length - 3 : ℕ) : ℝ))] := by
    simp [method4, e1, e2, e3, e4]
  have d1 : ((t.length : ℕ) : ℝ) / ((t.length : ℕ) : ℝ) = 1 :=
    div_self (Nat.cast_ne_zero.mpr e1)
  have d2 : ((t.length - 1 : ℕ) : ℝ) / ((t.length - 1 : ℕ) : ℝ) = 1 :=
    div_self (Nat.cast_ne_zero.mpr e2)
  have d3 : ((t.length - 2 : ℕ) : ℝ) / ((t.length - 2 : ℕ) : ℝ) = 1 :=
    div_self (Nat.cast_ne_zero.mpr e3)
  have d4 : ((t.length - 3 : ℕ) : ℝ) / ((t.length - 3 : ℕ) : ℝ) = 1 :=
    div_self (Nat.cast_ne_zero.mpr e4)
  have hcond : ¬((modified_precision t t 1).1 = 0) := by
    rw [c1]
    simpa using e1
  unfold sentence_bleu
  rw [if_neg hcond]
  simp only [hpf, hm, d1, d2, d3, d4, List.reduceOption_cons_of_some,
    List.reduceOption_nil, List.map_cons, List.map_nil, Real.log_one, mul_zero,
    List.sum_cons, List.sum_nil, add_zero, Real.exp_zero, mul_one,
    brevity_penalty_self t.length e1]

/-- A single-token reference also self-scores 1: its unigram precision is
1, the higher-order precisions have empty denominators and zero numerators,
but with `hyp_len = 1` method-4 smoothing does not touch them (its guard is
`1 < hyp_len`) and the positive-precision filter of the log-sum skips them,
so the score is `bp * exp(0.25 * log 1) = 1`. -/
theorem sentence_bleu_self_one (t : List String) (h : t.length = 1) :
    sentence_bleu t t = 1 := by
  obtain ⟨a, rfl⟩ : ∃ a, t = [a] := by
    rcases t with _ | ⟨a, _ | _⟩ <;> simp_all
  have hone : ngrams [a] 1 = [[a]] := by
    simp [ngrams, show List.range 1 = [0] from rfl]
  have hover : ∀ n, 2 ≤ n → ngrams [a] n = [] := by
    intro n hn
    have hz : 2 - n = 0 := by omega
    simp [ngrams, hz]
  have hmp1 : modified_precision [a] [a] 1 = (1, 1) := by
    simp [modified_precision, hone]
  have hcond : ¬((modified_precision [a] [a] 1).1 = 0) := by
    rw [hmp1]
    norm_num
  have hmpo : ∀ n, 2 ≤ n → modified_precision [a] [a] n = (0, 1) := by
    intro n hn
    simp [modified_precision, hover n hn]
  have hpf : precisionFractions [a] [a] = [(1, 1), (0, 1), (0, 1), (0, 1)] := by
    have hr : List.range 4 = [0, 1, 2, 3] := rfl
    rw [precisionFractions, hr]
    simp [hmp1, hmpo 2 (by norm_num), hmpo 3 (by norm_num), hmpo 4 (by norm_num)]
  unfold sentence_bleu
  rw [if_neg hcond]
  simp only [hpf, List.length_cons, List.length_nil, Nat.zero_add]
  have hm : method4 1 [(1, 1), (0, 1), (0, 1), (0, 1)] 1 =
      [some (((1 : ℕ) : ℝ) / ((1 : ℕ) : ℝ)), none, none, none] := by
    simp [method4]
  rw [hm]
  simp [brevity_penalty_self 1 (by norm_num)]

/-- A two-token reference self-scores strictly below 1: the unigram and
bigram precisions are 1, but the 3- and 4-gram precisions have zero
numerators and `hyp_len = 2 > 1`, so method-4 smoothing replaces them with
`log 2 / 10` and `log 2 / 20` — both in `(0, 1)` — whose logs drag the
weighted log-sum below 0. -/
theorem sentence_bleu_pair_lt_one : sentence_bleu ["a", "b"] ["a", "b"] < 1 := by
  have hcond : ¬((modified_precision ["a", "b"] ["a", "b"] 1).1 = 0) := by decide
  have hpf : precisionFractions ["a", "b"] ["a", "b"] =
      [(2, 2), (1, 1), (0, 1), (0, 1)] := by decide
  have hlen : (["a", "b"] : List String).length = 2 := rfl
  unfold sentence_bleu
  rw [if_neg hcond]
  simp only [hpf, hlen]
  have hm : method4 2 [(2, 2), (1, 1), (0, 1), (0, 1)] 1 =
      [some (((2 : ℕ) : ℝ) / ((2 : ℕ) : ℝ)), some (((1 : ℕ) : ℝ) / ((1 : ℕ) : ℝ)),
       some (Real.log ((2 : ℕ) : ℝ) / ((2 : ℝ) ^ (1 : ℕ) * 5 * ((1 : ℕ) : ℝ))),
       some (Real.log ((2 : ℕ) : ℝ) / ((2 : ℝ) ^ (2 : ℕ) * 5 * ((1 : ℕ) : ℝ)))] := by
    simp [method4]
  rw [hm]
  rw [brevity_penalty_self 2 (by norm_num), one_mul]
  rw [Real.exp_lt_one_iff]
  have l2pos : (0 : ℝ) < Real.log 2 := Real.log_pos (by norm_num)
  have l2lt : Real.log 2 < 10 :=
    lt_trans (Real.log_lt_sub_one_of_pos (by norm_num) (by norm_num)) (by norm_num)
  have h10 : Real.log (Real.log 2 / 10) < 0 :=
    Real.log_neg (by positivity) ((div_lt_one (by norm_num)).mpr l2lt)
  have h20 : Real.log (Real.log 2 / 20) < 0 :=
    Real.log_neg (by positivity) ((div_lt_one (by norm_num)).mpr (by linarith))
  simp only [List.reduceOption_cons_of_some, List.reduceOption_nil, List.map_cons,
    List.map_nil, List.sum_cons, List.sum_nil]
  norm_num
  nlinarith [h10, h20]

/-- A three-token reference self-scores strictly below 1: only the 4-gram
precision has a zero numerator, and method-4 smoothing replaces it with
`log 3 / 10 < 1`, whose log drags the weighted log-sum below 0. -/
theorem sentence_bleu_triple_lt_one :
    sentence_bleu ["a", "b", "c"] ["a", "b", "c"] < 1 := by
  have hcond : ¬((modified_precision ["a", "b", "c"] ["a", "b", "c"] 1).1 = 0) := by
    decide
  have hpf : precisionFractions ["a", "b", "c"] ["a", "b", "c"] =
      [(3, 3), (2, 2), (1, 1), (0, 1)] := by decide
  have hlen : (["a", "b", "c"] : List String).length = 3 := rfl
  unfold sentence_bleu
  rw [if_neg hcond]
  simp only [hpf, hlen]
  have hm : method4 3 [(3, 3), (2, 2), (1, 1), (0, 1)] 1 =
      [some (((3 : ℕ) : ℝ) / ((3 : ℕ) : ℝ)), some (((2 : ℕ) : ℝ) / ((2 : ℕ) : ℝ)),
       some (((1 : ℕ) : ℝ) / ((1 : ℕ) : ℝ)),
       some (Real.log ((3 : ℕ) : ℝ) / ((2 : ℝ) ^ (1 : ℕ) * 5 * ((1 : ℕ) : ℝ)))] := by
    simp [method4]
  rw [hm]
  rw [brevity_penalty_self 3 (by norm_num), one_mul]
  rw [Real.exp_lt_one_iff]
  have l3pos : (0 : ℝ) < Real.log 3 := Real.log_pos (by norm_num)
  have l3lt : Real.log 3 < 10 :=
    lt_trans (Real.log_lt_sub_one_of_pos (by norm_num) (by norm_num)) (by norm_num)
  have h10 : Real.log (Real.log 3 / 10) < 0 :=
    Real.log_neg (by positivity) ((div_lt_one (by norm_num)).mpr l3lt)
  simp only [List.reduceOption_cons_of_some, List.reduceOption_nil, List.map_cons,
    List.map_nil, List.sum_cons, List.sum_nil]
  norm_num
  nlinarith [h10]

/-- Counterexample to C6 as stated: the empty reference text self-scores 0
(no matching unigram, so the zero-numerator early return fires), and two-
and three-token reference texts self-score strictly below 1 (method-4
smoothing replaces their undefined higher-order precisions with values
below 1).  Single-token references, by contrast, do satisfy the original
claim — method-4 does not smooth when `hyp_len = 1` and the zero precisions
are skipped by the positivity filter. -/
theorem claim_C6_counterexample :
    (sentence_bleu (pySplit "") (pySplit "") = 0 ∧ (0 : ℝ) ≠ 1) ∧
    sentence_bleu (pySplit "a b") (pySplit "a b") < 1 ∧
    sentence_bleu (pySplit "a b c") (pySplit "a b c") < 1 := by
  refine ⟨⟨?_, by norm_num⟩, ?_, ?_⟩
  · rw [pySplit_empty]
    exact sentence_bleu_nil_hyp []
  · rw [show pySplit "a b" = ["a", "b"] from rfl]
    exact sentence_bleu_pair_lt_one
  · rw [show pySplit "a b c" = ["a", "b", "c"] from rfl]
    exact sentence_bleu_triple_lt_one

/-- C6 (amended): the harness's similarity score of a reference text
against itself is exactly 1.0 whenever the reference has at least four
whitespace tokens — in particular for both configured reference answers —
and also when it has exactly one token.  (The remaining cases fail the
original claim, as the counterexample shows: the empty text scores 0 and
two- or three-token texts score below 1.) -/
theorem claim_C6 :
    (∀ reference : String, 4 ≤ (pySplit reference).length →
      sentence_bleu (pySplit reference) (pySplit reference) = 1) ∧
    (∀ reference : String, (pySplit reference).length = 1 →
      sentence_bleu (pySplit reference) (pySplit reference) = 1) :=
  ⟨fun reference h => sentence_bleu_self (pySplit reference) h,
    fun reference h => sentence_bleu_self_one (pySplit reference) h⟩

/-- Witness for C6 at one of the configured reference answers (well over
four tokens) and at a single-token reference. -/
theorem claim_C6_witness :
    sentence_bleu
      (pySplit "The candidate is pursuing an MS in Computer Science at San Jose State University.")
      (pySplit "The candidate is pursuing an MS in Computer Science at San Jose State University.") = 1 ∧
    sentence_bleu (pySplit "Python") (pySplit "Python") = 1 :=
  ⟨claim_C6.1 "The candidate is pursuing an MS in Computer Science at San Jose State University."
      (by decide),
    claim_C6.2 "Python" (by decide)⟩
